import Mathlib

/-!
Shallow embedding of the Jarvis lead-finder frontend: the API client in
frontend/utils/api.ts, the ScrapeForm component, the StatsSummary
component and the LeadsTable component, together with proofs of the
behavioural properties stated in the specification.
-/

/-- Lead record as declared in frontend/utils/api.ts. Nullable TypeScript
fields become Option; the numeric id becomes Int. -/
structure Lead where
  id : Int
  name : String
  category : Option String
  address : Option String
  phone : Option String
  website : Option String
  has_website : Bool
  source : String
  query : String
  created_at : String
  deriving Repr, DecidableEq

/-- ScrapeResponse as declared in frontend/utils/api.ts. The two counters
are counts of committed leads, so they are modelled as naturals; a
JavaScript number holding such a count is truthy exactly when it is
nonzero. -/
structure ScrapeResponse where
  success : Bool
  leads_added : Nat
  high_priority : Nat
  deriving Repr, DecidableEq

/-- Abstract error value raised by a failed axios request. -/
structure ApiError where
  message : String
  deriving Repr, DecidableEq

/-- Priority cell of one LeadsTable row: the conditional on
lead.has_website that renders the High badge or the Low badge. -/
def priorityLabel (l : Lead) : String :=
  if !l.has_website then "High" else "Low"

/-- Rounding as performed by Math.round of JavaScript: floor of x + 1/2,
ties rounding toward positive infinity. -/
def jsRound (q : ℚ) : Int :=
  Int.floor (q + 1 / 2)

/-- Conversion-potential cell of StatsSummary: when stats.leads_added is
truthy (nonzero), the interpolation of Math.round of
high_priority over leads_added times 100 followed by a percent sign;
otherwise the literal string 0%. -/
def conversionCell (s : ScrapeResponse) : String :=
  if s.leads_added != 0 then
    toString (jsRound ((s.high_priority : ℚ) / (s.leads_added : ℚ) * 100)) ++ "%"
  else
    "0%"

/-- Content rendered by StatsSummary when stats is non-null: the three
cards of the grid. -/
structure StatsView where
  totalLeads : Nat
  highPriorityLeads : Nat
  conversion : String
  deriving Repr, DecidableEq

/-- StatsSummary component: on null stats it renders nothing (returns
null); otherwise it renders the three cards from the fields of stats. -/
def statsSummary : Option ScrapeResponse → Option StatsView
  | none => none
  | some s =>
      some { totalLeads := s.leads_added
             highPriorityLeads := s.high_priority
             conversion := conversionCell s }

/-- JSON body sent by scrapeLeads: an object with the single field
query. -/
structure ScrapeBody where
  query : String
  deriving Repr, DecidableEq

/-- A POST request issued through the axios instance. -/
structure PostRequest where
  path : String
  body : ScrapeBody
  deriving Repr, DecidableEq

/-- A GET request issued through the axios instance, carrying the
high_priority_only query parameter. -/
structure GetRequest where
  path : String
  high_priority_only : Bool
  deriving Repr, DecidableEq

/-- Request built by scrapeLeads in frontend/utils/api.ts: a POST to the
scrape-leads path whose body holds the query. -/
def scrapeLeadsRequest (q : String) : PostRequest :=
  { path := "/scrape-leads", body := { query := q } }

/-- scrapeLeads from frontend/utils/api.ts, parametrised by the transport.
On success the response data is returned unchanged; on failure the error
is logged to the console and re-thrown, modelled as returning the same
error. -/
def scrapeLeads (send : PostRequest → Except ApiError ScrapeResponse)
    (q : String) : Except ApiError ScrapeResponse :=
  match send (scrapeLeadsRequest q) with
  | Except.ok r => Except.ok r
  | Except.error e => Except.error e

/-- Request built by getLeads in frontend/utils/api.ts: a GET to the leads
path with the high_priority_only parameter. -/
def getLeadsRequest (b : Bool) : GetRequest :=
  { path := "/leads", high_priority_only := b }

/-- getLeads from frontend/utils/api.ts, parametrised by the transport. On
success the list of leads in the response is returned unchanged; on
failure the error is logged and re-thrown. -/
def getLeads (send : GetRequest → Except ApiError (List Lead))
    (highPriorityOnly : Bool) : Except ApiError (List Lead) :=
  match send (getLeadsRequest highPriorityOnly) with
  | Except.ok ls => Except.ok ls
  | Except.error e => Except.error e

/-- getLeads invoked with its TypeScript default argument, which is
highPriorityOnly = false. -/
def getLeadsDefault (send : GetRequest → Except ApiError (List Lead)) :
    Except ApiError (List Lead) :=
  getLeads send false

/-- Characters stripped by the trim method of JavaScript strings: ASCII
whitespace, vertical tab, form feed, no-break space and the byte order
mark. The remaining Unicode space separators are not needed by any
property proved here. -/
def jsWhitespace (c : Char) : Bool :=
  c = ' ' || c = '\t' || c = '\n' || c = '\r' || c = '\x0b' ||
    c = '\x0c' || c = '\u00A0' || c = '\uFEFF'

/-- Trim method of JavaScript strings: drop leading and trailing
whitespace characters. -/
def jsTrim (s : String) : String :=
  String.mk (((s.data.dropWhile jsWhitespace).reverse.dropWhile jsWhitespace).reverse)

/-- Local state of the ScrapeForm component: the query input and the
isLoading flag. -/
structure FormState where
  query : String
  isLoading : Bool
  deriving Repr, DecidableEq

/-- Observable actions performed by handleSubmit: the validation alert,
the scrapeLeads call, and the onSuccess and onError callbacks passed in by
the parent page. -/
inductive Effect where
  | alertInvalid : Effect
  | apiScrape (query : String) : Effect
  | onSuccess (r : ScrapeResponse) : Effect
  | onError (e : ApiError) : Effect
  deriving Repr, DecidableEq

/-- handleSubmit of ScrapeForm.tsx, parametrised by the transport used by
scrapeLeads. A query that is blank after trimming alerts and returns
before any request. Otherwise the request runs: on success the query is
cleared and onSuccess called, on failure onError is called with the query
left alone; the finally block resets isLoading on both paths. The result
is the state after the handler together with the effects in order. -/
def handleSubmit (send : PostRequest → Except ApiError ScrapeResponse)
    (s : FormState) : FormState × List Effect :=
  if jsTrim s.query = "" then
    (s, [Effect.alertInvalid])
  else
    match scrapeLeads send s.query with
    | Except.ok r =>
        ({ s with query := "", isLoading := false },
         [Effect.apiScrape s.query, Effect.onSuccess r])
    | Except.error e =>
        ({ s with isLoading := false },
         [Effect.apiScrape s.query, Effect.onError e])

/-- State of the page relevant to scrape serialization: the isLoading flag
of the form and the number of scrape requests currently in flight. -/
structure UiState where
  isLoading : Bool
  inFlight : Nat
  deriving Repr, DecidableEq

/-- Events of the form lifecycle: pressing the submit button with the
current query text, and settlement (fulfilment or rejection) of the
awaited scrapeLeads promise. -/
inductive UiEvent where
  | press (query : String) : UiEvent
  | settle : UiEvent
  deriving Repr, DecidableEq

/-- One step of the ScrapeForm lifecycle. While isLoading is true the
submit button and the input carry the disabled attribute, so a press does
nothing; a blank query returns before the request; otherwise
setIsLoading(true) runs and one request enters flight. Settlement fires
the finally block: setIsLoading(false), and the settled request leaves
flight. -/
def uiStep (s : UiState) : UiEvent → UiState
  | UiEvent.press q =>
      if s.isLoading then s
      else if jsTrim q = "" then s
      else { isLoading := true, inFlight := s.inFlight + 1 }
  | UiEvent.settle =>
      if s.isLoading then { isLoading := false, inFlight := s.inFlight - 1 }
      else s

/-- Initial state of the page: not loading, no request in flight. -/
def uiInit : UiState :=
  { isLoading := false, inFlight := 0 }

/-- Run of the form lifecycle from the initial state. -/
def uiRun (evs : List UiEvent) : UiState :=
  evs.foldl uiStep uiInit

/-- Shape of the Lead record as section 3 of the specification states it,
written from the words of the spec for comparison with the Lead record of
the code. -/
structure SpecLead where
  id : Int
  name : String
  category : Option String
  address : Option String
  phone : Option String
  website : Option String
  has_website : Bool
  source : String
  query : String
  created_at : String
  deriving Repr, DecidableEq

/-- Field-by-field reading of a code-level Lead as the shape the spec
describes. -/
def leadToSpec (l : Lead) : SpecLead :=
  { id := l.id, name := l.name, category := l.category, address := l.address,
    phone := l.phone, website := l.website, has_website := l.has_website,
    source := l.source, query := l.query, created_at := l.created_at }

/-- Field-by-field reading of a spec-shaped record as a code-level Lead. -/
def leadOfSpec (s : SpecLead) : Lead :=
  { id := s.id, name := s.name, category := s.category, address := s.address,
    phone := s.phone, website := s.website, has_website := s.has_website,
    source := s.source, query := s.query, created_at := s.created_at }

/-- A trimmed string is empty exactly when every character of the original
string is whitespace; this connects the guard of handleSubmit with the
wording of the specification. -/
theorem jsTrim_eq_empty_iff (s : String) :
    jsTrim s = "" ↔ ∀ c ∈ s.data, jsWhitespace c = true := by
  unfold jsTrim
  constructor
  · intro h c hc
    have hl : ((s.data.dropWhile jsWhitespace).reverse.dropWhile jsWhitespace).reverse
        = [] := by
      simpa using congrArg String.data h
    have h2 : (s.data.dropWhile jsWhitespace).reverse.dropWhile jsWhitespace = [] :=
      List.reverse_eq_nil_iff.mp hl
    have h3 : ∀ x ∈ (s.data.dropWhile jsWhitespace).reverse, jsWhitespace x :=
      List.dropWhile_eq_nil_iff.mp h2
    have h4 : ∀ x ∈ s.data.dropWhile jsWhitespace, jsWhitespace x := fun x hx =>
      h3 x (List.mem_reverse.mpr hx)
    have hsplit : c ∈ s.data.takeWhile jsWhitespace ++ s.data.dropWhile jsWhitespace := by
      rw [List.takeWhile_append_dropWhile]
      exact hc
    rcases List.mem_append.mp hsplit with h5 | h5
    · exact List.mem_takeWhile_imp h5
    · exact h4 c h5
  · intro h
    have h1 : s.data.dropWhile jsWhitespace = [] := List.dropWhile_eq_nil_iff.mpr h
    simp [h1]

/-- One step of the form lifecycle preserves the linkage between the
isLoading flag and the number of requests in flight. -/
theorem uiStep_inFlight_inv (s : UiState) (e : UiEvent)
    (h : s.inFlight = if s.isLoading then 1 else 0) :
    (uiStep s e).inFlight = if (uiStep s e).isLoading then 1 else 0 := by
  cases e with
  | press q =>
      cases hl : s.isLoading with
      | true =>
          simp [hl] at h
          simp [uiStep, hl, h]
      | false =>
          simp [hl] at h
          by_cases ht : jsTrim q = ""
          · simp [uiStep, hl, ht, h]
          · simp [uiStep, hl, ht, h]
  | settle =>
      cases hl : s.isLoading with
      | true =>
          simp [hl] at h
          simp [uiStep, hl, h]
      | false =>
          simp [hl] at h
          simp [uiStep, hl, h]

/-- Along every run of the form lifecycle, the number of requests in
flight equals one when isLoading is set and zero otherwise. -/
theorem uiRun_inFlight_inv (evs : List UiEvent) :
    (uiRun evs).inFlight = if (uiRun evs).isLoading then 1 else 0 := by
  have main : ∀ (l : List UiEvent) (s : UiState),
      s.inFlight = (if s.isLoading then 1 else 0) →
      (l.foldl uiStep s).inFlight = if (l.foldl uiStep s).isLoading then 1 else 0 := by
    intro l
    induction l with
    | nil => intro s h; simpa using h
    | cons e l ih => intro s h; simpa using ih (uiStep s e) (uiStep_inFlight_inv s e h)
  simpa [uiRun] using main evs uiInit rfl

/-- C1: for every Lead rendered by the leads table, the priority cell
shows High exactly when has_website is false, and Low exactly when
has_website is true. -/
theorem leadsTable_priority_label (l : Lead) :
    (priorityLabel l = "High" ↔ l.has_website = false) ∧
    (priorityLabel l = "Low" ↔ l.has_website = true) := by
  cases h : l.has_website <;> simp [priorityLabel, h]

/-- C1 witness: the labels at a concrete lead without a website. -/
theorem leadsTable_priority_label_witness :
    (priorityLabel ⟨1, "Acme Plumbing", none, none, none, none, false,
        "google_maps", "plumbers in Manchester", "2024-01-01"⟩ = "High" ↔
      (false : Bool) = false) ∧
    (priorityLabel ⟨1, "Acme Plumbing", none, none, none, none, false,
        "google_maps", "plumbers in Manchester", "2024-01-01"⟩ = "Low" ↔
      (false : Bool) = true) :=
  leadsTable_priority_label _

/-- C2: the stats summary interpolates the rounded percentage
high_priority over leads_added times 100 exactly when leads_added is
positive, and shows the literal 0% when leads_added is zero, never
performing the division there. -/
theorem statsSummary_conversion_guard (s : ScrapeResponse) :
    (0 < s.leads_added →
      conversionCell s =
        toString (jsRound ((s.high_priority : ℚ) / (s.leads_added : ℚ) * 100)) ++ "%") ∧
    (s.leads_added = 0 → conversionCell s = "0%") := by
  constructor
  · intro h
    have hne : s.leads_added ≠ 0 := Nat.pos_iff_ne_zero.mp h
    simp [conversionCell, hne]
  · intro h
    simp [conversionCell, h]

/-- C2 witness: the two branches at three leads with two high priority,
and at zero leads. -/
theorem statsSummary_conversion_guard_witness :
    conversionCell { success := true, leads_added := 3, high_priority := 2 } =
      toString (jsRound (((2 : Nat) : ℚ) / ((3 : Nat) : ℚ) * 100)) ++ "%" ∧
    conversionCell { success := true, leads_added := 0, high_priority := 0 } = "0%" :=
  ⟨(statsSummary_conversion_guard
      { success := true, leads_added := 3, high_priority := 2 }).1 (by decide),
   (statsSummary_conversion_guard
      { success := true, leads_added := 0, high_priority := 0 }).2 rfl⟩

/-- C3: a query whose characters are all whitespace (the empty query
included) makes handleSubmit alert and return with no request issued, and
a scrapeLeads call happens only when the query holds at least one
non-whitespace character. -/
theorem handleSubmit_blank_query_guard
    (send : PostRequest → Except ApiError ScrapeResponse) (s : FormState) :
    ((∀ c ∈ s.query.data, jsWhitespace c = true) →
      handleSubmit send s = (s, [Effect.alertInvalid])) ∧
    (∀ q, Effect.apiScrape q ∈ (handleSubmit send s).2 →
      ∃ c ∈ s.query.data, jsWhitespace c = false) := by
  constructor
  · intro h
    have ht : jsTrim s.query = "" := (jsTrim_eq_empty_iff s.query).mpr h
    simp [handleSubmit, ht]
  · intro q hq
    by_cases ht : jsTrim s.query = ""
    · simp [handleSubmit, ht] at hq
    · have hnot : ¬ ∀ c ∈ s.query.data, jsWhitespace c = true := fun hall =>
        ht ((jsTrim_eq_empty_iff s.query).mpr hall)
      push_neg at hnot
      obtain ⟨c, hc, hcw⟩ := hnot
      exact ⟨c, hc, by simpa using hcw⟩

/-- C3 witness: a whitespace-only query is rejected with only the alert
effect. -/
theorem handleSubmit_blank_query_guard_witness :
    handleSubmit (fun _ => Except.ok { success := true, leads_added := 0, high_priority := 0 })
        { query := "   ", isLoading := false } =
      ({ query := "   ", isLoading := false }, [Effect.alertInvalid]) :=
  (handleSubmit_blank_query_guard
      (fun _ => Except.ok { success := true, leads_added := 0, high_priority := 0 })
      { query := "   ", isLoading := false }).1 (by decide)

/-- C4: scrapeLeads posts to the scrape-leads path with a JSON body whose
single query field is the given query, and on success returns the response
record unchanged. -/
theorem scrapeLeads_request_shape
    (send : PostRequest → Except ApiError ScrapeResponse) (q : String) :
    (scrapeLeadsRequest q).path = "/scrape-leads" ∧
    (scrapeLeadsRequest q).body.query = q ∧
    ∀ r, send (scrapeLeadsRequest q) = Except.ok r → scrapeLeads send q = Except.ok r := by
  refine ⟨rfl, rfl, ?_⟩
  intro r h
  simp [scrapeLeads, h]

/-- C4 witness: the request shape and the success path at a concrete query
and transport. -/
theorem scrapeLeads_request_shape_witness :
    (scrapeLeadsRequest "plumbers in Manchester").path = "/scrape-leads" ∧
    (scrapeLeadsRequest "plumbers in Manchester").body.query = "plumbers in Manchester" ∧
    scrapeLeads (fun _ => Except.ok { success := true, leads_added := 3, high_priority := 2 })
        "plumbers in Manchester" =
      Except.ok { success := true, leads_added := 3, high_priority := 2 } :=
  ⟨(scrapeLeads_request_shape
      (fun _ => Except.ok { success := true, leads_added := 3, high_priority := 2 })
      "plumbers in Manchester").1,
   (scrapeLeads_request_shape
      (fun _ => Except.ok { success := true, leads_added := 3, high_priority := 2 })
      "plumbers in Manchester").2.1,
   (scrapeLeads_request_shape
      (fun _ => Except.ok { success := true, leads_added := 3, high_priority := 2 })
      "plumbers in Manchester").2.2 _ rfl⟩

/-- C5: getLeads issues a GET to the leads path with the
high_priority_only parameter equal to its argument, the omitted argument
defaults to false, and on success the list of leads is returned
unchanged. -/
theorem getLeads_request_shape
    (send : GetRequest → Except ApiError (List Lead)) (b : Bool) :
    (getLeadsRequest b).path = "/leads" ∧
    (getLeadsRequest b).high_priority_only = b ∧
    getLeadsDefault send = getLeads send false ∧
    ∀ ls, send (getLeadsRequest b) = Except.ok ls → getLeads send b = Except.ok ls := by
  refine ⟨rfl, rfl, rfl, ?_⟩
  intro ls h
  simp [getLeads, h]

/-- C5 witness: the request shape, the default argument and the success
path at a concrete transport. -/
theorem getLeads_request_shape_witness :
    (getLeadsRequest true).path = "/leads" ∧
    (getLeadsRequest true).high_priority_only = true ∧
    getLeadsDefault (fun _ => Except.ok ([] : List Lead)) =
      getLeads (fun _ => Except.ok ([] : List Lead)) false ∧
    getLeads (fun _ => Except.ok ([] : List Lead)) true = Except.ok ([] : List Lead) :=
  ⟨(getLeads_request_shape (fun _ => Except.ok ([] : List Lead)) true).1,
   (getLeads_request_shape (fun _ => Except.ok ([] : List Lead)) true).2.1,
   (getLeads_request_shape (fun _ => Except.ok ([] : List Lead)) true).2.2.1,
   (getLeads_request_shape (fun _ => Except.ok ([] : List Lead)) true).2.2.2 [] rfl⟩

/-- C6: the Lead record of the API boundary has exactly the shape the spec
states, witnessed by a field-preserving bijection between the code record
and the spec-shaped record. -/
theorem lead_api_shape :
    (∀ l : Lead, leadOfSpec (leadToSpec l) = l) ∧
    (∀ s : SpecLead, leadToSpec (leadOfSpec s) = s) ∧
    ∀ l : Lead,
      (leadToSpec l).name = l.name ∧ (leadToSpec l).category = l.category ∧
      (leadToSpec l).address = l.address ∧ (leadToSpec l).phone = l.phone ∧
      (leadToSpec l).website = l.website ∧ (leadToSpec l).has_website = l.has_website ∧
      (leadToSpec l).id = l.id ∧ (leadToSpec l).source = l.source ∧
      (leadToSpec l).query = l.query ∧ (leadToSpec l).created_at = l.created_at :=
  ⟨fun _ => rfl, fun _ => rfl,
   fun _ => ⟨rfl, rfl, rfl, rfl, rfl, rfl, rfl, rfl, rfl, rfl⟩⟩

/-- C6 witness: the round trip at a concrete lead. -/
theorem lead_api_shape_witness :
    leadOfSpec (leadToSpec ⟨7, "Acme Roofing", none, some "12 High St", none, none,
        false, "google_maps", "roofers in Leeds", "2024-05-01"⟩) =
      ⟨7, "Acme Roofing", none, some "12 High St", none, none,
        false, "google_maps", "roofers in Leeds", "2024-05-01"⟩ :=
  lead_api_shape.1 _

/-- C7: a failing transport makes scrapeLeads and getLeads re-raise the
error to the caller, never returning a success value. -/
theorem api_errors_propagate
    (sendP : PostRequest → Except ApiError ScrapeResponse)
    (sendG : GetRequest → Except ApiError (List Lead))
    (q : String) (b : Bool) (e : ApiError) :
    (sendP (scrapeLeadsRequest q) = Except.error e →
      scrapeLeads sendP q = Except.error e) ∧
    (sendG (getLeadsRequest b) = Except.error e →
      getLeads sendG b = Except.error e) := by
  constructor <;> intro h <;> simp [scrapeLeads, getLeads, h]

/-- C7 witness: both operations re-raise a concrete error. -/
theorem api_errors_propagate_witness :
    scrapeLeads (fun _ => Except.error { message := "network down" }) "plumbers" =
      Except.error { message := "network down" } ∧
    getLeads (fun _ => Except.error { message := "network down" }) false =
      Except.error { message := "network down" } :=
  ⟨(api_errors_propagate (fun _ => Except.error { message := "network down" })
      (fun _ => Except.error { message := "network down" }) "plumbers" false
      { message := "network down" }).1 rfl,
   (api_errors_propagate (fun _ => Except.error { message := "network down" })
      (fun _ => Except.error { message := "network down" }) "plumbers" false
      { message := "network down" }).2 rfl⟩

/-- C8: along every run of the form lifecycle at most one scrape request
is in flight, and while one is in flight (isLoading true) a press of the
disabled submit button changes nothing, so no second scrape can start. -/
theorem single_scrape_in_flight (evs : List UiEvent) (q : String) :
    (uiRun evs).inFlight ≤ 1 ∧
    ((uiRun evs).isLoading = true →
      uiStep (uiRun evs) (UiEvent.press q) = uiRun evs) := by
  constructor
  · have h := uiRun_inFlight_inv evs
    cases hl : (uiRun evs).isLoading <;> simp [hl] at h <;> omega
  · intro hl
    simp [uiStep, hl]

/-- C8 witness: after one press a request is in flight and a second press
is ignored. -/
theorem single_scrape_in_flight_witness :
    (uiRun [UiEvent.press "plumbers in Manchester"]).inFlight ≤ 1 ∧
    uiStep (uiRun [UiEvent.press "plumbers in Manchester"])
        (UiEvent.press "roofers in Leeds") =
      uiRun [UiEvent.press "plumbers in Manchester"] :=
  ⟨(single_scrape_in_flight [UiEvent.press "plumbers in Manchester"] "roofers in Leeds").1,
   (single_scrape_in_flight [UiEvent.press "plumbers in Manchester"]
      "roofers in Leeds").2 (by decide)⟩

/-- C9: when the submitted scrape fails, handleSubmit leaves the query
unchanged, invokes onError and never onSuccess, and resets isLoading;
when it succeeds, the query is cleared, onSuccess is invoked and isLoading
is reset as well. -/
theorem handleSubmit_failure_state
    (send : PostRequest → Except ApiError ScrapeResponse) (s : FormState)
    (e : ApiError) (r : ScrapeResponse) (ht : jsTrim s.query ≠ "") :
    (send (scrapeLeadsRequest s.query) = Except.error e →
      (handleSubmit send s).1.query = s.query ∧
      (handleSubmit send s).1.isLoading = false ∧
      Effect.onError e ∈ (handleSubmit send s).2 ∧
      ∀ r2, Effect.onSuccess r2 ∉ (handleSubmit send s).2) ∧
    (send (scrapeLeadsRequest s.query) = Except.ok r →
      (handleSubmit send s).1.query = "" ∧
      (handleSubmit send s).1.isLoading = false ∧
      Effect.onSuccess r ∈ (handleSubmit send s).2) := by
  constructor <;> intro h <;> simp [handleSubmit, ht, scrapeLeads, h]

/-- C9 witness: both outcomes at a concrete query, transport and error. -/
theorem handleSubmit_failure_state_witness :
    ((handleSubmit (fun _ => Except.error { message := "http 500" })
        { query := "plumbers", isLoading := true }).1.query = "plumbers" ∧
      (handleSubmit (fun _ => Except.error { message := "http 500" })
        { query := "plumbers", isLoading := true }).1.isLoading = false ∧
      Effect.onError { message := "http 500" } ∈
        (handleSubmit (fun _ => Except.error { message := "http 500" })
          { query := "plumbers", isLoading := true }).2 ∧
      ∀ r2, Effect.onSuccess r2 ∉
        (handleSubmit (fun _ => Except.error { message := "http 500" })
          { query := "plumbers", isLoading := true }).2) ∧
    ((handleSubmit (fun _ => Except.ok { success := true, leads_added := 1, high_priority := 1 })
        { query := "plumbers", isLoading := true }).1.query = "" ∧
      (handleSubmit (fun _ => Except.ok { success := true, leads_added := 1, high_priority := 1 })
        { query := "plumbers", isLoading := true }).1.isLoading = false ∧
      Effect.onSuccess { success := true, leads_added := 1, high_priority := 1 } ∈
        (handleSubmit (fun _ => Except.ok { success := true, leads_added := 1, high_priority := 1 })
          { query := "plumbers", isLoading := true }).2) :=
  ⟨(handleSubmit_failure_state (fun _ => Except.error { message := "http 500" })
      { query := "plumbers", isLoading := true } { message := "http 500" }
      { success := true, leads_added := 1, high_priority := 1 } (by decide)).1 rfl,
   (handleSubmit_failure_state
      (fun _ => Except.ok { success := true, leads_added := 1, high_priority := 1 })
      { query := "plumbers", isLoading := true } { message := "http 500" }
      { success := true, leads_added := 1, high_priority := 1 } (by decide)).2 rfl⟩

/-- C10: the stats summary is total over nullable stats: on null it
renders nothing, and on any non-null stats it renders the three cards
built from the fields of the stats record. -/
theorem statsSummary_null_total :
    statsSummary none = none ∧
    ∀ s : ScrapeResponse,
      statsSummary (some s) =
        some { totalLeads := s.leads_added, highPriorityLeads := s.high_priority,
               conversion := conversionCell s } :=
  ⟨rfl, fun _ => rfl⟩

/-- C10 witness: the null branch and one concrete non-null branch. -/
theorem statsSummary_null_total_witness :
    statsSummary none = none ∧
    statsSummary (some { success := true, leads_added := 2, high_priority := 1 }) =
      some { totalLeads := 2, highPriorityLeads := 1,
             conversion := conversionCell { success := true, leads_added := 2, high_priority := 1 } } :=
  ⟨statsSummary_null_total.1, statsSummary_null_total.2 _⟩
